import Mathlib

/-!
Verification of the projectionlab-mcp tool-call handlers (src/index.ts).

The handlers operate on an in-memory `ProjectionLabExport` document (typed in
src/types.ts) and are embedded here as pure functions: each tool-call handler
becomes a function from the current document and its argument object to a
`CallResult` holding the possibly-updated document, whether `saveData` was
reached, and the success/error outcome.  JavaScript in-place mutation of an
entity located with `find` is rendered as replacement of the first matching
element of the owning list; `splice(idx, 1)` at a `findIndex` result is
rendered as removal of the first matching element.  A tool-call argument that
may be absent (`undefined`) is an `Option`; a JSON scalar argument that the
transport may deliver as a string or a number is a `JValue`.  Fields of the
export document that no modelled handler reads or writes (assets, settings,
progress, meta, and the purely cosmetic entity fields) are omitted.
-/

/-- A JSON scalar as delivered by the tool-call transport: a string or a
number.  Handlers store such argument values verbatim via a TypeScript cast,
so both shapes can reach the document. -/
inductive JValue where
  | str (s : String)
  | num (n : Int)
  deriving Repr, DecidableEq

/-- `DateReference` (src/types.ts): a tagged point-in-time boundary with a
`type`, a `value`, and an optional `modifier`.  The handlers assign whatever
object the caller supplied, so `value` and `modifier` are JSON scalars. -/
structure DateReference where
  type : String
  value : JValue
  modifier : Option JValue := none
  logic : Option String := none
  deriving Repr, DecidableEq

/-- `MilestoneCriterion` (src/types.ts): one clause of a milestone trigger.
The seldom-used display fields (`range`, `fixedRange`, `measurement`,
`removable`) are omitted; no handler touches them. -/
structure MilestoneCriterion where
  type : Option String := none
  value : Option JValue := none
  valueType : Option String := none
  operator : Option String := none
  modifier : Option String := none
  logic : Option String := none
  refId : Option String := none
  deriving Repr, DecidableEq

/-- `Milestone` (src/types.ts). -/
structure Milestone where
  id : String
  name : String
  icon : Option String := none
  color : Option String := none
  removable : Option Bool := none
  criteria : Option (List MilestoneCriterion) := none
  deriving Repr, DecidableEq

/-- `IncomeEvent` (src/types.ts), restricted to the fields the handlers read
or write. -/
structure IncomeEvent where
  id : String
  type : String
  name : Option String := none
  amount : Option Int := none
  amountType : Option String := none
  owner : Option String := none
  frequency : Option String := none
  start : Option DateReference := none
  end' : Option DateReference := none
  deriving Repr, DecidableEq

/-- `ExpenseEvent` (src/types.ts), restricted to the fields the handlers read
or write. -/
structure ExpenseEvent where
  id : String
  type : String
  name : Option String := none
  amount : Option Int := none
  amountType : Option String := none
  frequency : Option String := none
  spendingType : Option String := none
  start : Option DateReference := none
  end' : Option DateReference := none
  deriving Repr, DecidableEq

/-- `PriorityEvent` (src/types.ts), restricted to the fields the handlers read
or write. -/
structure PriorityEvent where
  id : String
  type : String
  name : Option String := none
  owner : Option String := none
  mode : Option String := none
  accountId : Option String := none
  debtId : Option String := none
  amount : Option Int := none
  amountType : Option String := none
  contribution : Option Int := none
  contributionType : Option String := none
  employerMatch : Option Int := none
  employerMatchLimit : Option Int := none
  start : Option DateReference := none
  end' : Option DateReference := none
  deriving Repr, DecidableEq

/-- `SavingsAccount` (src/types.ts).  `type` is kept as a plain string: the
`add_account` handler writes the request's `accountType` through a cast. -/
structure SavingsAccount where
  id : String
  type : String
  name : Option String := none
  balance : Int
  owner : Option String := none
  deriving Repr, DecidableEq

/-- `InvestmentAccount` (src/types.ts).  `type` is kept as a plain string: the
`add_account` handler writes the request's `accountType` through a cast. -/
structure InvestmentAccount where
  id : String
  type : String
  name : Option String := none
  balance : Int
  owner : Option String := none
  deriving Repr, DecidableEq

/-- `Debt` (src/types.ts), restricted to the fields the handlers read or
write. -/
structure Debt where
  id : String
  type : String
  subtype : Option String := none
  name : Option String := none
  amount : Int
  owner : Option String := none
  interestRate : Option Int := none
  monthlyPayment : Option Int := none
  deriving Repr, DecidableEq

/-- The `today` snapshot: the document-level entity collections, each of which
may be absent in the export file. -/
structure Today where
  savingsAccounts : Option (List SavingsAccount) := none
  investmentAccounts : Option (List InvestmentAccount) := none
  debts : Option (List Debt) := none
  deriving Repr, DecidableEq

/-- The `{ events?: T[] }` wrapper used by `plan.income`, `plan.expenses`
and `plan.priorities`. -/
structure EventBlock (α : Type) where
  events : Option (List α) := none
  deriving Repr, DecidableEq

/-- `Plan` (src/types.ts), restricted to the fields the handlers read or
write. -/
structure Plan where
  id : String
  name : String
  lastUpdated : Option Int := none
  milestones : Option (List Milestone) := none
  computedMilestones : Option (List Milestone) := none
  income : Option (EventBlock IncomeEvent) := none
  expenses : Option (EventBlock ExpenseEvent) := none
  priorities : Option (EventBlock PriorityEvent) := none
  deriving Repr, DecidableEq

/-- The root export document. -/
structure ProjectionLabExport where
  today : Today
  plans : List Plan
  deriving Repr, DecidableEq

deriving instance DecidableEq for Except

/-- The observable outcome of one tool call: the in-memory document after the
call, whether the handler reached `saveData` (every mutation persists the
whole document; an error thrown earlier skips it), and the response —
`Except.error` carries the thrown message that the catch-all wrapper turns
into an error envelope. -/
structure CallResult where
  doc : ProjectionLabExport
  saved : Bool
  response : Except String Unit
  deriving Repr, DecidableEq

/-- Replace the first element satisfying `p`: the pure rendering of mutating,
in place, the object that `Array.prototype.find` returned. -/
def replaceFirst (p : α → Bool) (f : α → α) : List α → List α
  | [] => []
  | x :: xs => if p x then f x :: xs else x :: replaceFirst p f xs

/-- Remove the first element satisfying `p`: the pure rendering of
`splice(idx, 1)` at the index `findIndex` returned. -/
def eraseFirst (p : α → Bool) : List α → List α
  | [] => []
  | x :: xs => if p x then xs else x :: eraseFirst p xs

/-- `if (arg !== undefined) entity.field = arg` on an optional entity field:
an explicit presence check, so a supplied zero or empty string overwrites. -/
def applyIfPresent (arg : Option α) (old : Option α) : Option α :=
  match arg with
  | some v => some v
  | none => old

/-- `findPlan` (index.ts): first plan whose `id` matches. -/
def findPlan (d : ProjectionLabExport) (planId : String) : Option Plan :=
  d.plans.find? (fun p => p.id == planId)

theorem find?_replaceFirst (p : α → Bool) (f : α → α) (l : List α)
    (hf : ∀ x, p x = true → p (f x) = true) :
    (replaceFirst p f l).find? p = (l.find? p).map f := by
  induction l with
  | nil => rfl
  | cons x xs ih =>
    cases hx : p x with
    | true => simp [replaceFirst, hx, List.find?, hf x hx]
    | false => simp [replaceFirst, hx, List.find?, ih]

theorem find?_eraseFirst (r p : α → Bool) (l : List α)
    (h : ∀ x, r x = true → p x = false) :
    (eraseFirst r l).find? p = l.find? p := by
  induction l with
  | nil => rfl
  | cons x xs ih =>
    cases hx : r x with
    | true => simp [eraseFirst, hx, List.find?, h x hx]
    | false => simp [eraseFirst, hx, List.find?, ih]

theorem findIdx?_eq_none_of_find?_eq_none (p : α → Bool) (l : List α)
    (h : l.find? p = none) : l.findIdx? p = none := by
  induction l with
  | nil => rfl
  | cons x xs ih =>
    cases hx : p x with
    | true => simp [List.find?, hx] at h
    | false =>
      simp only [List.find?, hx] at h
      have hxs := ih h
      simp only [List.findIdx?_cons, hx, cond_false, List.findIdx?_succ, hxs,
        Option.map_none']
      simp

/-- The entity lookup performed by `get_income`:
`findPlan(planId)` then `plan.income?.events?.find(i => i.id === incomeId)`. -/
def getIncomeEvent (d : ProjectionLabExport) (planId incomeId : String) :
    Option IncomeEvent :=
  (findPlan d planId).bind fun plan =>
    ((plan.income.bind EventBlock.events).getD []).find? (fun i => i.id == incomeId)

/-- The entity lookup performed by `get_expense`. -/
def getExpenseEvent (d : ProjectionLabExport) (planId expenseId : String) :
    Option ExpenseEvent :=
  (findPlan d planId).bind fun plan =>
    ((plan.expenses.bind EventBlock.events).getD []).find? (fun e => e.id == expenseId)

/-- The entity lookup performed by `get_priority`. -/
def getPriorityEvent (d : ProjectionLabExport) (planId priorityId : String) :
    Option PriorityEvent :=
  (findPlan d planId).bind fun plan =>
    ((plan.priorities.bind EventBlock.events).getD []).find? (fun p => p.id == priorityId)

/-- The entity lookup performed by `get_milestone`:
`findPlan(planId)` then `plan.milestones?.find(m => m.id === milestoneId)`. -/
def getMilestone (d : ProjectionLabExport) (planId milestoneId : String) :
    Option Milestone :=
  (findPlan d planId).bind fun plan =>
    (plan.milestones.getD []).find? (fun m => m.id == milestoneId)

/-- Argument object of the `update_income` tool. -/
structure UpdateIncomeArgs where
  planId : String
  incomeId : String
  amount : Option Int := none
  name : Option String := none
  start : Option DateReference := none
  end' : Option DateReference := none
  deriving Repr, DecidableEq

/-- The field merge `update_income` performs on the located income event:
each supplied field overwrites, each absent field is left untouched. -/
def mergeIncome (a : UpdateIncomeArgs) (i : IncomeEvent) : IncomeEvent :=
  { i with
    amount := applyIfPresent a.amount i.amount
    name := applyIfPresent a.name i.name
    start := applyIfPresent a.start i.start
    end' := applyIfPresent a.end' i.end' }

/-- The in-place mutation `update_income` applies to the plan that owns the
located income event. -/
def updIncomePlan (a : UpdateIncomeArgs) (p : Plan) : Plan :=
  { p with income := some ⟨some (replaceFirst
    (fun i => i.id == a.incomeId) (mergeIncome a)
    ((p.income.bind EventBlock.events).getD []))⟩ }

/-- `update_income` handler (index.ts): locate the plan and the income event,
merge the supplied fields onto it (the supplied `start`/`end` objects are
assigned verbatim through a cast), then persist. -/
def update_income (d : ProjectionLabExport) (a : UpdateIncomeArgs) : CallResult :=
  match findPlan d a.planId with
  | none => ⟨d, false, .error ("Plan not found: " ++ a.planId)⟩
  | some plan =>
    match ((plan.income.bind EventBlock.events).getD []).find?
        (fun i => i.id == a.incomeId) with
    | none => ⟨d, false, .error ("Income not found: " ++ a.incomeId)⟩
    | some _ =>
      ⟨{ d with plans := (replaceFirst (fun p => p.id == a.planId)
          (updIncomePlan a) d.plans) }, true, .ok ()⟩

/-- Argument object of the `update_expense` tool. -/
structure UpdateExpenseArgs where
  planId : String
  expenseId : String
  amount : Option Int := none
  name : Option String := none
  start : Option DateReference := none
  end' : Option DateReference := none
  deriving Repr, DecidableEq

/-- The field merge `update_expense` performs on the located expense event. -/
def mergeExpense (a : UpdateExpenseArgs) (e : ExpenseEvent) : ExpenseEvent :=
  { e with
    amount := applyIfPresent a.amount e.amount
    name := applyIfPresent a.name e.name
    start := applyIfPresent a.start e.start
    end' := applyIfPresent a.end' e.end' }

/-- The in-place mutation `update_expense` applies to the owning plan. -/
def updExpensePlan (a : UpdateExpenseArgs) (p : Plan) : Plan :=
  { p with expenses := some ⟨some (replaceFirst
    (fun e => e.id == a.expenseId) (mergeExpense a)
    ((p.expenses.bind EventBlock.events).getD []))⟩ }

/-- `update_expense` handler (index.ts). -/
def update_expense (d : ProjectionLabExport) (a : UpdateExpenseArgs) : CallResult :=
  match findPlan d a.planId with
  | none => ⟨d, false, .error ("Plan not found: " ++ a.planId)⟩
  | some plan =>
    match ((plan.expenses.bind EventBlock.events).getD []).find?
        (fun e => e.id == a.expenseId) with
    | none => ⟨d, false, .error ("Expense not found: " ++ a.expenseId)⟩
    | some _ =>
      ⟨{ d with plans := (replaceFirst (fun p => p.id == a.planId)
          (updExpensePlan a) d.plans) }, true, .ok ()⟩

/-- Argument object of the `update_priority` tool. -/
structure UpdatePriorityArgs where
  planId : String
  priorityId : String
  amount : Option Int := none
  amountType : Option String := none
  mode : Option String := none
  contribution : Option Int := none
  contributionType : Option String := none
  employerMatch : Option Int := none
  employerMatchLimit : Option Int := none
  start : Option DateReference := none
  end' : Option DateReference := none
  deriving Repr, DecidableEq

/-- The field merge `update_priority` performs on the located priority. -/
def mergePriority (a : UpdatePriorityArgs) (p : PriorityEvent) : PriorityEvent :=
  { p with
    amount := applyIfPresent a.amount p.amount
    amountType := applyIfPresent a.amountType p.amountType
    mode := applyIfPresent a.mode p.mode
    contribution := applyIfPresent a.contribution p.contribution
    contributionType := applyIfPresent a.contributionType p.contributionType
    employerMatch := applyIfPresent a.employerMatch p.employerMatch
    employerMatchLimit := applyIfPresent a.employerMatchLimit p.employerMatchLimit
    start := applyIfPresent a.start p.start
    end' := applyIfPresent a.end' p.end' }

/-- The in-place mutation `update_priority` applies to the owning plan. -/
def updPriorityPlan (a : UpdatePriorityArgs) (p : Plan) : Plan :=
  { p with priorities := some ⟨some (replaceFirst
    (fun pr => pr.id == a.priorityId) (mergePriority a)
    ((p.priorities.bind EventBlock.events).getD []))⟩ }

/-- `update_priority` handler (index.ts). -/
def update_priority (d : ProjectionLabExport) (a : UpdatePriorityArgs) : CallResult :=
  match findPlan d a.planId with
  | none => ⟨d, false, .error ("Plan not found: " ++ a.planId)⟩
  | some plan =>
    match ((plan.priorities.bind EventBlock.events).getD []).find?
        (fun p => p.id == a.priorityId) with
    | none => ⟨d, false, .error ("Priority not found: " ++ a.priorityId)⟩
    | some _ =>
      ⟨{ d with plans := (replaceFirst (fun p => p.id == a.planId)
          (updPriorityPlan a) d.plans) }, true, .ok ()⟩

/-- Argument object of the `add_expense` tool. -/
structure AddExpenseArgs where
  planId : String
  type : String
  name : String
  amount : Int
  spendingType : Option String := none
  start : Option DateReference := none
  end' : Option DateReference := none
  deriving Repr, DecidableEq

/-- The expense event `add_expense` constructs: a supplied `start`/`end` is
stored verbatim, an absent one defaults to the keyword references `now` /
`endOfPlan`; `now` is the `Date.now()` timestamp used for the generated id. -/
def newExpenseEvent (a : AddExpenseArgs) (now : Int) : ExpenseEvent :=
  { id := "expense-" ++ toString now
    type := a.type
    name := some a.name
    amount := some a.amount
    amountType := some "today$"
    frequency := some "yearly"
    spendingType := some (a.spendingType.getD "discretionary")
    start := some (a.start.getD { type := "keyword", value := .str "now" })
    end' := some (a.end'.getD { type := "keyword", value := .str "endOfPlan" }) }

/-- The in-place mutation `add_expense` applies to the target plan. -/
def pushExpensePlan (e : ExpenseEvent) (p : Plan) : Plan :=
  { p with expenses := some ⟨some
    (((p.expenses.bind EventBlock.events).getD []) ++ [e])⟩ }

/-- `add_expense` handler (index.ts): append a new expense event to the
target plan, then persist. -/
def add_expense (d : ProjectionLabExport) (a : AddExpenseArgs) (now : Int) :
    CallResult :=
  match findPlan d a.planId with
  | none => ⟨d, false, .error ("Plan not found: " ++ a.planId)⟩
  | some _ =>
    ⟨{ d with plans := (replaceFirst (fun p => p.id == a.planId)
        (pushExpensePlan (newExpenseEvent a now)) d.plans) }, true, .ok ()⟩

/-- Argument object of the `add_priority` tool. -/
structure AddPriorityArgs where
  planId : String
  type : String
  name : String
  accountId : Option String := none
  debtId : Option String := none
  owner : Option String := none
  mode : Option String := none
  amount : Option Int := none
  amountType : Option String := none
  contribution : Option Int := none
  contributionType : Option String := none
  employerMatch : Option Int := none
  employerMatchLimit : Option Int := none
  start : Option DateReference := none
  end' : Option DateReference := none
  deriving Repr, DecidableEq

/-- The priority event `add_priority` constructs: a supplied `start`/`end` is
stored verbatim, an absent one defaults to the keyword references `now` /
`endOfPlan`. -/
def newPriorityEvent (a : AddPriorityArgs) (now : Int) : PriorityEvent :=
  { id := "priority-" ++ toString now
    type := a.type
    name := some a.name
    owner := some (a.owner.getD "me")
    mode := some (a.mode.getD "contribution")
    accountId := a.accountId
    debtId := a.debtId
    amount := a.amount
    amountType := a.amountType
    contribution := a.contribution
    contributionType := a.contributionType
    employerMatch := a.employerMatch
    employerMatchLimit := a.employerMatchLimit
    start := some (a.start.getD { type := "keyword", value := .str "now" })
    end' := some (a.end'.getD { type := "keyword", value := .str "endOfPlan" }) }

/-- The in-place mutation `add_priority` applies to the target plan. -/
def pushPriorityPlan (pr : PriorityEvent) (p : Plan) : Plan :=
  { p with priorities := some ⟨some
    (((p.priorities.bind EventBlock.events).getD []) ++ [pr])⟩ }

/-- `add_priority` handler (index.ts): append a new priority to the target
plan, then persist. -/
def add_priority (d : ProjectionLabExport) (a : AddPriorityArgs) (now : Int) :
    CallResult :=
  match findPlan d a.planId with
  | none => ⟨d, false, .error ("Plan not found: " ++ a.planId)⟩
  | some _ =>
    ⟨{ d with plans := (replaceFirst (fun p => p.id == a.planId)
        (pushPriorityPlan (newPriorityEvent a now)) d.plans) }, true, .ok ()⟩

/-- Argument object of the `update_milestone` tool. -/
structure UpdateMilestoneArgs where
  planId : String
  milestoneId : String
  name : Option String := none
  criteria : Option (List MilestoneCriterion) := none
  deriving Repr, DecidableEq

/-- The field merge `update_milestone` performs on the located milestone: a
supplied `criteria` array replaces the stored one verbatim. -/
def mergeMilestone (a : UpdateMilestoneArgs) (m : Milestone) : Milestone :=
  { m with
    name := a.name.getD m.name
    criteria := applyIfPresent a.criteria m.criteria }

/-- The in-place mutation `update_milestone` applies to the owning plan. -/
def updMilestonePlan (a : UpdateMilestoneArgs) (p : Plan) : Plan :=
  { p with milestones := some (replaceFirst
    (fun m => m.id == a.milestoneId) (mergeMilestone a)
    (p.milestones.getD [])) }

/-- `update_milestone` handler (index.ts). -/
def update_milestone (d : ProjectionLabExport) (a : UpdateMilestoneArgs) :
    CallResult :=
  match findPlan d a.planId with
  | none => ⟨d, false, .error ("Plan not found: " ++ a.planId)⟩
  | some plan =>
    match (plan.milestones.getD []).find? (fun m => m.id == a.milestoneId) with
    | none => ⟨d, false, .error ("Milestone not found: " ++ a.milestoneId)⟩
    | some _ =>
      ⟨{ d with plans := (replaceFirst (fun p => p.id == a.planId)
          (updMilestonePlan a) d.plans) }, true, .ok ()⟩

/-- Argument object of the `add_milestone` tool. -/
structure AddMilestoneArgs where
  planId : String
  name : String
  icon : Option String := none
  color : Option String := none
  criteria : Option (List MilestoneCriterion) := none
  deriving Repr, DecidableEq

/-- The milestone `add_milestone` constructs: a timestamp-derived id and the
supplied fields, the `criteria` array stored verbatim. -/
def newMilestoneEntity (a : AddMilestoneArgs) (now : Int) : Milestone :=
  { id := "milestone-" ++ toString now
    name := a.name
    removable := some true
    icon := a.icon
    color := a.color
    criteria := a.criteria }

/-- The in-place mutation `add_milestone` applies to the target plan. -/
def pushMilestonePlan (m : Milestone) (p : Plan) : Plan :=
  { p with milestones := some ((p.milestones.getD []) ++ [m]) }

/-- `add_milestone` handler (index.ts): append a new milestone to the target
plan, then persist. -/
def add_milestone (d : ProjectionLabExport) (a : AddMilestoneArgs) (now : Int) :
    CallResult :=
  match findPlan d a.planId with
  | none => ⟨d, false, .error ("Plan not found: " ++ a.planId)⟩
  | some _ =>
    ⟨{ d with plans := (replaceFirst (fun p => p.id == a.planId)
        (pushMilestonePlan (newMilestoneEntity a now)) d.plans) }, true, .ok ()⟩

/-- `get_debt` handler (index.ts): pure lookup, never mutates or persists. -/
def get_debt (d : ProjectionLabExport) (debtId : String) : CallResult :=
  match (d.today.debts.getD []).find? (fun dbt => dbt.id == debtId) with
  | none => ⟨d, false, .error ("Debt not found: " ++ debtId)⟩
  | some _ => ⟨d, false, .ok ()⟩

/-- `delete_debt` handler (index.ts): `findIndex` then `splice(idx, 1)`;
an absent id aborts before any mutation or persist. -/
def delete_debt (d : ProjectionLabExport) (debtId : String) : CallResult :=
  match (d.today.debts.getD []).findIdx? (fun dbt => dbt.id == debtId) with
  | none => ⟨d, false, .error ("Debt not found: " ++ debtId)⟩
  | some _ =>
    ⟨{ d with today := { d.today with debts := some (
      eraseFirst (fun dbt => dbt.id == debtId) (d.today.debts.getD [])) } },
      true, .ok ()⟩

/-- The union lookup the account handlers share: probe the savings collection
first, the investment collection second; the first match wins. -/
def findAccount (d : ProjectionLabExport) (accountId : String) :
    Option (Sum SavingsAccount InvestmentAccount) :=
  match (d.today.savingsAccounts.getD []).find? (fun a => a.id == accountId) with
  | some s => some (Sum.inl s)
  | none =>
    match (d.today.investmentAccounts.getD []).find? (fun a => a.id == accountId) with
    | some i => some (Sum.inr i)
    | none => none

/-- `get_account` handler (index.ts): savings-then-investment lookup via `??`;
pure, never mutates or persists. -/
def get_account (d : ProjectionLabExport) (accountId : String) : CallResult :=
  match findAccount d accountId with
  | none => ⟨d, false, .error ("Account not found: " ++ accountId)⟩
  | some _ => ⟨d, false, .ok ()⟩

/-- `update_account_balance` handler (index.ts): probe savings first and, on a
hit, mutate that entry and return; only probe investments when savings missed. -/
def update_account_balance (d : ProjectionLabExport) (accountId : String)
    (balance : Int) : CallResult :=
  match (d.today.savingsAccounts.getD []).find? (fun a => a.id == accountId) with
  | some _ =>
    ⟨{ d with today := { d.today with savingsAccounts := some (
      replaceFirst (fun a => a.id == accountId) (fun a => { a with balance := balance })
        (d.today.savingsAccounts.getD [])) } }, true, .ok ()⟩
  | none =>
    match (d.today.investmentAccounts.getD []).find? (fun a => a.id == accountId) with
    | some _ =>
      ⟨{ d with today := { d.today with investmentAccounts := some (
        replaceFirst (fun a => a.id == accountId) (fun a => { a with balance := balance })
          (d.today.investmentAccounts.getD [])) } }, true, .ok ()⟩
    | none => ⟨d, false, .error ("Account not found: " ++ accountId)⟩

/-- `rename_account` handler (index.ts): same savings-first probe order. -/
def rename_account (d : ProjectionLabExport) (accountId : String)
    (name : String) : CallResult :=
  match (d.today.savingsAccounts.getD []).find? (fun a => a.id == accountId) with
  | some _ =>
    ⟨{ d with today := { d.today with savingsAccounts := some (
      replaceFirst (fun a => a.id == accountId) (fun a => { a with name := some name })
        (d.today.savingsAccounts.getD [])) } }, true, .ok ()⟩
  | none =>
    match (d.today.investmentAccounts.getD []).find? (fun a => a.id == accountId) with
    | some _ =>
      ⟨{ d with today := { d.today with investmentAccounts := some (
        replaceFirst (fun a => a.id == accountId) (fun a => { a with name := some name })
          (d.today.investmentAccounts.getD [])) } }, true, .ok ()⟩
    | none => ⟨d, false, .error ("Account not found: " ++ accountId)⟩

/-- `delete_account` handler (index.ts): `findIndex` in savings first, then
investments; splice out the first hit, error when both miss. -/
def delete_account (d : ProjectionLabExport) (accountId : String) : CallResult :=
  match (d.today.savingsAccounts.getD []).findIdx? (fun a => a.id == accountId) with
  | some _ =>
    ⟨{ d with today := { d.today with savingsAccounts := some (
      eraseFirst (fun a => a.id == accountId) (d.today.savingsAccounts.getD [])) } },
      true, .ok ()⟩
  | none =>
    match (d.today.investmentAccounts.getD []).findIdx? (fun a => a.id == accountId) with
    | some _ =>
      ⟨{ d with today := { d.today with investmentAccounts := some (
        eraseFirst (fun a => a.id == accountId) (d.today.investmentAccounts.getD [])) } },
        true, .ok ()⟩
    | none => ⟨d, false, .error ("Account not found: " ++ accountId)⟩

/-- Argument object of the `add_account` tool. -/
structure AddAccountArgs where
  name : String
  balance : Int
  accountType : String
  owner : Option String := none
  deriving Repr, DecidableEq

/-- `add_account` handler (index.ts): only the exact string `"savings"` routes
the new account into the savings collection; every other `accountType` string
is cast to the investment-account type field verbatim and the account is
appended to the investment collection. -/
def add_account (d : ProjectionLabExport) (a : AddAccountArgs) (now : Int) :
    CallResult :=
  let owner := a.owner.getD "me"
  if a.accountType == "savings" then
    let newAccount : SavingsAccount :=
      { id := "account-" ++ toString now, type := "savings",
        name := some a.name, balance := a.balance, owner := some owner }
    ⟨{ d with today := { d.today with savingsAccounts := some (
      (d.today.savingsAccounts.getD []) ++ [newAccount]) } }, true, .ok ()⟩
  else
    let newAccount : InvestmentAccount :=
      { id := "account-" ++ toString now, type := a.accountType,
        name := some a.name, balance := a.balance, owner := some owner }
    ⟨{ d with today := { d.today with investmentAccounts := some (
      (d.today.investmentAccounts.getD []) ++ [newAccount]) } }, true, .ok ()⟩

/-- The id `duplicate_plan` generates for the copy from the `Date.now()`
timestamp. -/
def dupPlanId (now : Int) : String := "plan-" ++ toString now

/-- The copy `duplicate_plan` builds: a JSON-round-trip deep clone of the
source plan with `id`, `name` and `lastUpdated` overwritten.  The clone of a
JSON-serializable value is the value itself, so the copy keeps every nested
entity (and nested id) of the source unchanged. -/
def dupCopy (sourcePlan : Plan) (newName : String) (now : Int) : Plan :=
  { sourcePlan with
    id := dupPlanId now
    name := newName
    lastUpdated := some now }

/-- `duplicate_plan` handler (index.ts): deep-clone the source plan, assign
the fresh id, the supplied name and the timestamp, append, persist. -/
def duplicate_plan (d : ProjectionLabExport) (planId newName : String)
    (now : Int) : CallResult :=
  match findPlan d planId with
  | none => ⟨d, false, .error ("Plan not found: " ++ planId)⟩
  | some sourcePlan =>
    ⟨{ d with plans := d.plans ++ [dupCopy sourcePlan newName now] },
      true, .ok ()⟩

/-- `delete_plan` handler (index.ts): locate by `findIndex`, refuse when only
one plan remains, otherwise splice the located plan out and persist. -/
def delete_plan (d : ProjectionLabExport) (planId : String) : CallResult :=
  match d.plans.findIdx? (fun p => p.id == planId) with
  | none => ⟨d, false, .error ("Plan not found: " ++ planId)⟩
  | some _ =>
    if d.plans.length == 1 then
      ⟨d, false, .error "Cannot delete the last plan"⟩
    else
      ⟨{ d with plans := eraseFirst (fun p => p.id == planId) d.plans },
        true, .ok ()⟩

/-- The module-level mutable state of the server process: the configured data
file path and the loaded document (both `null` until `set_data_file`). -/
structure ServerState where
  dataFilePath : Option String := none
  data : Option ProjectionLabExport := none
  deriving Repr, DecidableEq

/-- `set_data_file` handler (index.ts): the (already resolved) path is
assigned to the module state first; only then does `loadData` read and parse
the file.  The outcome of that read is passed in as `readResult`; a failure
propagates to the catch-all wrapper after the path assignment has already
taken effect, leaving the previously loaded document in memory. -/
def set_data_file (st : ServerState) (absolutePath : String)
    (readResult : Except String ProjectionLabExport) :
    ServerState × Except String Unit :=
  let st' := { st with dataFilePath := some absolutePath }
  match readResult with
  | .ok d => ({ st' with data := some d }, .ok ())
  | .error e => ({ st' with data := st.data }, .error e)

/-- The write `saveData` performs on a given server state: the in-memory
document serialized to the currently configured path, or the thrown error
when either is missing. -/
def saveDataTarget (st : ServerState) :
    Except String (String × ProjectionLabExport) :=
  match st.dataFilePath, st.data with
  | some fp, some doc => .ok (fp, doc)
  | _, _ => .error "No data loaded to save."


theorem update_income_spec (d : ProjectionLabExport) (a : UpdateIncomeArgs)
    (inc : IncomeEvent) (h : getIncomeEvent d a.planId a.incomeId = some inc) :
    (update_income d a).response = Except.ok () ∧
    (update_income d a).saved = true ∧
    getIncomeEvent (update_income d a).doc a.planId a.incomeId =
      some (mergeIncome a inc) := by
  unfold getIncomeEvent at h
  cases hp : findPlan d a.planId with
  | none => rw [hp] at h; simp at h
  | some plan =>
    rw [hp] at h
    simp only [Option.some_bind] at h
    have key : update_income d a =
        ⟨{ d with plans := (replaceFirst (fun p => p.id == a.planId)
            (updIncomePlan a) d.plans) }, true, .ok ()⟩ := by
      simp only [update_income, hp, h]
    rw [key]
    refine ⟨rfl, rfl, ?_⟩
    unfold getIncomeEvent findPlan
    unfold findPlan at hp
    dsimp only
    have hpres : ∀ x : Plan, (x.id == a.planId) = true →
        ((updIncomePlan a x).id == a.planId) = true := fun x hx => hx
    rw [find?_replaceFirst _ (updIncomePlan a) d.plans hpres]
    rw [hp]
    simp only [Option.map_some', Option.some_bind]
    unfold updIncomePlan
    dsimp only
    simp only [Option.some_bind, Option.getD_some]
    have hpres2 : ∀ x : IncomeEvent, (x.id == a.incomeId) = true →
        ((mergeIncome a x).id == a.incomeId) = true := fun x hx => hx
    rw [find?_replaceFirst _ (mergeIncome a) _ hpres2]
    rw [h]
    rfl

theorem update_milestone_spec (d : ProjectionLabExport) (a : UpdateMilestoneArgs)
    (m : Milestone) (h : getMilestone d a.planId a.milestoneId = some m) :
    (update_milestone d a).response = Except.ok () ∧
    (update_milestone d a).saved = true ∧
    getMilestone (update_milestone d a).doc a.planId a.milestoneId =
      some (mergeMilestone a m) := by
  unfold getMilestone at h
  cases hp : findPlan d a.planId with
  | none => rw [hp] at h; simp at h
  | some plan =>
    rw [hp] at h
    simp only [Option.some_bind] at h
    have key : update_milestone d a =
        ⟨{ d with plans := (replaceFirst (fun p => p.id == a.planId)
            (updMilestonePlan a) d.plans) }, true, .ok ()⟩ := by
      simp only [update_milestone, hp, h]
    rw [key]
    refine ⟨rfl, rfl, ?_⟩
    unfold getMilestone findPlan
    unfold findPlan at hp
    dsimp only
    have hpres : ∀ x : Plan, (x.id == a.planId) = true →
        ((updMilestonePlan a x).id == a.planId) = true := fun x hx => hx
    rw [find?_replaceFirst _ (updMilestonePlan a) d.plans hpres]
    rw [hp]
    simp only [Option.map_some', Option.some_bind]
    unfold updMilestonePlan
    dsimp only
    simp only [Option.getD_some]
    have hpres2 : ∀ x : Milestone, (x.id == a.milestoneId) = true →
        ((mergeMilestone a x).id == a.milestoneId) = true := fun x hx => hx
    rw [find?_replaceFirst _ (mergeMilestone a) _ hpres2]
    rw [h]
    rfl

theorem find?_append_left (p : α → Bool) (l1 l2 : List α) (x : α)
    (h : l1.find? p = some x) : (l1 ++ l2).find? p = some x := by
  induction l1 with
  | nil => simp [List.find?] at h
  | cons y ys ih =>
    cases hy : p y with
    | true =>
      simp only [List.find?, hy] at h
      simp [List.find?, hy, h]
    | false =>
      simp only [List.find?, hy] at h
      simp only [List.cons_append, List.find?, hy]
      exact ih h

theorem find?_append_right (p : α → Bool) (l1 l2 : List α)
    (h : l1.find? p = none) : (l1 ++ l2).find? p = l2.find? p := by
  induction l1 with
  | nil => rfl
  | cons y ys ih =>
    cases hy : p y with
    | true => simp only [List.find?, hy] at h; cases h
    | false =>
      simp only [List.find?, hy] at h
      simp only [List.cons_append, List.find?, hy]
      exact ih h

theorem find?_replaceFirst_of_incompat (p r : α → Bool) (f : α → α)
    (l : List α) (h : ∀ x, r x = true → p x = false)
    (hid : ∀ x, p (f x) = p x) :
    (replaceFirst r f l).find? p = l.find? p := by
  induction l with
  | nil => rfl
  | cons x xs ih =>
    cases hx : r x with
    | true =>
      have hpx := h x hx
      simp [replaceFirst, hx, List.find?, hid x, hpx]
    | false => simp [replaceFirst, hx, List.find?, ih]

theorem findIdx?_eq_some_of_find?_eq_some (p : α → Bool) (l : List α) (x : α)
    (h : l.find? p = some x) : ∃ i, l.findIdx? p = some i := by
  induction l with
  | nil => simp [List.find?] at h
  | cons y ys ih =>
    cases hy : p y with
    | true => exact ⟨0, by simp [List.findIdx?_cons, hy]⟩
    | false =>
      simp only [List.find?, hy] at h
      obtain ⟨i, hi⟩ := ih h
      refine ⟨i + 1, ?_⟩
      simp [List.findIdx?_cons, hy, List.findIdx?_succ, hi]

theorem add_expense_spec (d : ProjectionLabExport) (a : AddExpenseArgs)
    (now : Int) (plan : Plan) (hp : findPlan d a.planId = some plan) :
    (add_expense d a now).response = Except.ok () ∧
    (add_expense d a now).saved = true ∧
    findPlan (add_expense d a now).doc a.planId =
      some (pushExpensePlan (newExpenseEvent a now) plan) := by
  have key : add_expense d a now =
      ⟨{ d with plans := (replaceFirst (fun p => p.id == a.planId)
          (pushExpensePlan (newExpenseEvent a now)) d.plans) }, true, .ok ()⟩ := by
    simp only [add_expense, hp]
  rw [key]
  refine ⟨rfl, rfl, ?_⟩
  unfold findPlan
  unfold findPlan at hp
  dsimp only
  have hpres : ∀ x : Plan, (x.id == a.planId) = true →
      ((pushExpensePlan (newExpenseEvent a now) x).id == a.planId) = true :=
    fun x hx => hx
  rw [find?_replaceFirst _ (pushExpensePlan (newExpenseEvent a now)) d.plans hpres]
  rw [hp]
  rfl

theorem add_milestone_spec (d : ProjectionLabExport) (a : AddMilestoneArgs)
    (now : Int) (plan : Plan) (hp : findPlan d a.planId = some plan) :
    (add_milestone d a now).response = Except.ok () ∧
    (add_milestone d a now).saved = true ∧
    findPlan (add_milestone d a now).doc a.planId =
      some (pushMilestonePlan (newMilestoneEntity a now) plan) := by
  have key : add_milestone d a now =
      ⟨{ d with plans := (replaceFirst (fun p => p.id == a.planId)
          (pushMilestonePlan (newMilestoneEntity a now)) d.plans) }, true, .ok ()⟩ := by
    simp only [add_milestone, hp]
  rw [key]
  refine ⟨rfl, rfl, ?_⟩
  unfold findPlan
  unfold findPlan at hp
  dsimp only
  have hpres : ∀ x : Plan, (x.id == a.planId) = true →
      ((pushMilestonePlan (newMilestoneEntity a now) x).id == a.planId) = true :=
    fun x hx => hx
  rw [find?_replaceFirst _ (pushMilestonePlan (newMilestoneEntity a now)) d.plans hpres]
  rw [hp]
  rfl

/-- A sample income event for concrete evaluations. -/
def exIncome : IncomeEvent :=
  { id := "income-1", type := "salary", name := some "Job",
    amount := some 100000, amountType := some "today$",
    frequency := some "yearly",
    start := some { type := "keyword", value := .str "now" },
    end' := some { type := "keyword", value := .str "endOfPlan" } }

/-- A sample milestone for concrete evaluations. -/
def exMilestone : Milestone := { id := "ms-1", name := "Retirement" }

/-- A sample plan owning the sample income event and milestone. -/
def exPlan : Plan :=
  { id := "plan-1", name := "Base",
    income := some ⟨some [exIncome]⟩,
    milestones := some [exMilestone] }

/-- A sample debt for concrete evaluations. -/
def exDebt : Debt := { id := "debt-1", type := "debt", amount := 12000 }

/-- A sample one-plan document (no accounts configured). -/
def exDoc : ProjectionLabExport :=
  { today := { debts := some [exDebt] }, plans := [exPlan] }

/-- A second sample plan. -/
def exPlan2 : Plan := { id := "plan-2", name := "Alt" }

/-- A sample two-plan document. -/
def exDoc2 : ProjectionLabExport :=
  { today := {}, plans := [exPlan, exPlan2] }

/-- A sample savings account whose id also occurs among the investment
accounts of `exDocAcc`. -/
def exSavings : SavingsAccount :=
  { id := "acc-1", type := "savings", name := some "Cash", balance := 5000 }

/-- A sample investment account sharing the id of `exSavings`. -/
def exInvestment : InvestmentAccount :=
  { id := "acc-1", type := "401k", name := some "401k", balance := 90000 }

/-- A sample document whose savings and investment collections contain the
same account id. -/
def exDocAcc : ProjectionLabExport :=
  { today := { savingsAccounts := some [exSavings],
               investmentAccounts := some [exInvestment] },
    plans := [exPlan] }

/-- The `update_income` argument used by the C1 counterexample: a `year`
reference whose value "59" does not match the 4-digit pattern. -/
def year59Args : UpdateIncomeArgs :=
  { planId := "plan-1", incomeId := "income-1"
    start := some { type := "year", value := .str "59" } }

/-- C1 counterexample: on the sample document, `update_income` with a `start`
of `{ type: "year", value: "59" }` succeeds and stores the reference verbatim
instead of failing with a `ValidationError`. -/
theorem dateref_year_validation_cex :
    (update_income exDoc year59Args).response = Except.ok () ∧
    getIncomeEvent (update_income exDoc year59Args).doc "plan-1" "income-1" =
      some { exIncome with
        start := some { type := "year", value := .str "59" } } := by
  constructor
  · decide
  · decide

/-- C1 (corrected): the update and add operations perform no validation of a
supplied `DateReference`.  `update_income` succeeds whenever the plan and the
income event exist and stores the supplied `start`/`end` objects verbatim
(any value, e.g. the string "59"), and `add_expense` succeeds whenever the
plan exists, appending an expense that carries the supplied `start` verbatim;
no `ValidationError` is ever raised. -/
theorem dateref_stored_verbatim :
    (∀ (d : ProjectionLabExport) (a : UpdateIncomeArgs) (inc : IncomeEvent),
      getIncomeEvent d a.planId a.incomeId = some inc →
      (update_income d a).response = Except.ok () ∧
      getIncomeEvent (update_income d a).doc a.planId a.incomeId =
        some (mergeIncome a inc)) ∧
    (∀ (d : ProjectionLabExport) (a : AddExpenseArgs) (now : Int) (plan : Plan)
      (ref : DateReference),
      findPlan d a.planId = some plan → a.start = some ref →
      (add_expense d a now).response = Except.ok () ∧
      findPlan (add_expense d a now).doc a.planId =
        some (pushExpensePlan (newExpenseEvent a now) plan) ∧
      (newExpenseEvent a now).start = some ref) := by
  constructor
  · intro d a inc h
    obtain ⟨h1, _, h3⟩ := update_income_spec d a inc h
    exact ⟨h1, h3⟩
  · intro d a now plan ref hp hs
    obtain ⟨h1, _, h3⟩ := add_expense_spec d a now plan hp
    refine ⟨h1, h3, ?_⟩
    simp [newExpenseEvent, hs]

/-- The `update_income` argument used by the C1 witness: a `year` reference
whose value "2059-01" does not match the 4-digit pattern. -/
def year205901Args : UpdateIncomeArgs :=
  { planId := "plan-1", incomeId := "income-1"
    start := some { type := "year", value := .str "2059-01" } }

/-- C1 witness: a concrete instantiation of `dateref_stored_verbatim`: a year
reference whose value is "2059-01" is stored unchanged. -/
theorem dateref_stored_verbatim_witness :
    (update_income exDoc year205901Args).response = Except.ok () ∧
    getIncomeEvent (update_income exDoc year205901Args).doc
        "plan-1" "income-1" = some (mergeIncome year205901Args exIncome) :=
  dateref_stored_verbatim.1 exDoc year205901Args exIncome (by decide)

/-- The `update_milestone` argument used by the C2 counterexample: an
`account` criterion whose `refId` matches no account in the document. -/
def ghostCriterion : MilestoneCriterion :=
  { type := some "account", value := some (.num 1000)
    refId := some "ghost-account" }

def ghostRefArgs : UpdateMilestoneArgs :=
  { planId := "plan-1", milestoneId := "ms-1"
    criteria := some [ghostCriterion] }

/-- C2 counterexample: the sample document contains no account at all, yet
`update_milestone` with an `account`-typed criterion whose `refId` matches
neither account collection succeeds and stores the criterion, instead of
failing with a message naming the checked collections. -/
theorem account_refid_unchecked_cex :
    findAccount exDoc "ghost-account" = none ∧
    (update_milestone exDoc ghostRefArgs).response = Except.ok () ∧
    getMilestone (update_milestone exDoc ghostRefArgs).doc "plan-1" "ms-1" =
      some { exMilestone with criteria := some [ghostCriterion] } := by
  refine ⟨by decide, by decide, by decide⟩

/-- C2 (corrected): `update_milestone` and `add_milestone` perform no
cross-reference check on criteria: the supplied criteria list is stored
verbatim (whatever its `refId` values) and the call succeeds precisely when
the plan and, for updates, the milestone exist. -/
theorem milestone_criteria_stored_verbatim :
    (∀ (d : ProjectionLabExport) (a : UpdateMilestoneArgs) (m : Milestone),
      getMilestone d a.planId a.milestoneId = some m →
      (update_milestone d a).response = Except.ok () ∧
      getMilestone (update_milestone d a).doc a.planId a.milestoneId =
        some (mergeMilestone a m)) ∧
    (∀ (d : ProjectionLabExport) (a : AddMilestoneArgs) (now : Int) (plan : Plan),
      findPlan d a.planId = some plan →
      (add_milestone d a now).response = Except.ok () ∧
      findPlan (add_milestone d a now).doc a.planId =
        some (pushMilestonePlan (newMilestoneEntity a now) plan)) := by
  constructor
  · intro d a m h
    obtain ⟨h1, _, h3⟩ := update_milestone_spec d a m h
    exact ⟨h1, h3⟩
  · intro d a now plan hp
    obtain ⟨h1, _, h3⟩ := add_milestone_spec d a now plan hp
    exact ⟨h1, h3⟩

/-- The `update_milestone` argument used by the C2 witness. -/
def noAccountRefArgs : UpdateMilestoneArgs :=
  { planId := "plan-1", milestoneId := "ms-1"
    criteria := some [{ type := some "account", value := some (.num 500000)
                        refId := some "no-such-account" }] }

/-- C2 witness: a concrete instantiation of
`milestone_criteria_stored_verbatim` with an `account` criterion referencing
a nonexistent account id. -/
theorem milestone_criteria_stored_verbatim_witness :
    (update_milestone exDoc noAccountRefArgs).response = Except.ok () ∧
    getMilestone (update_milestone exDoc noAccountRefArgs).doc
        "plan-1" "ms-1" = some (mergeMilestone noAccountRefArgs exMilestone) :=
  milestone_criteria_stored_verbatim.1 exDoc noAccountRefArgs exMilestone
    (by decide)

/-- The `update_milestone` argument used by the C3 counterexample: a
`netWorth` criterion carrying the string value "1000000". -/
def netWorthStringArgs : UpdateMilestoneArgs :=
  { planId := "plan-1", milestoneId := "ms-1"
    criteria := some [{ type := some "netWorth"
                        value := some (.str "1000000") }] }

/-- C3 counterexample: `update_milestone` with a `netWorth` criterion whose
value is the string "1000000" succeeds and stores the string, instead of
failing with a type-mismatch `ValidationError`. -/
theorem networth_string_value_accepted_cex :
    (update_milestone exDoc netWorthStringArgs).response = Except.ok () ∧
    getMilestone (update_milestone exDoc netWorthStringArgs).doc
        "plan-1" "ms-1" =
      some { exMilestone with
        criteria := some [{ type := some "netWorth"
                            value := some (.str "1000000") }] } := by
  refine ⟨by decide, by decide⟩

/-- The `update_milestone` argument carrying a single `netWorth` criterion
with the given value. -/
def netWorthArgs (planId milestoneId : String) (v : JValue) :
    UpdateMilestoneArgs :=
  { planId := planId, milestoneId := milestoneId
    criteria := some [{ type := some "netWorth", value := some v }] }

/-- C3 (corrected): a `netWorth` criterion is stored verbatim whatever the
shape of its value: both a numeric and a string value are accepted and stored
whenever the plan and milestone exist; no type-mismatch error exists. -/
theorem networth_criterion_value_unvalidated (d : ProjectionLabExport)
    (planId milestoneId : String) (m : Milestone) (v : JValue)
    (h : getMilestone d planId milestoneId = some m) :
    (update_milestone d (netWorthArgs planId milestoneId v)).response =
      Except.ok () ∧
    getMilestone (update_milestone d (netWorthArgs planId milestoneId v)).doc
        planId milestoneId =
      some { m with
        criteria := some [{ type := some "netWorth", value := some v }] } := by
  obtain ⟨h1, _, h3⟩ :=
    update_milestone_spec d (netWorthArgs planId milestoneId v) m h
  exact ⟨h1, h3⟩

/-- C3 witness: a concrete instantiation of
`networth_criterion_value_unvalidated` with the numeric value 1000000 (the
half of the claim that does hold: numbers are accepted). -/
theorem networth_criterion_value_unvalidated_witness :
    (update_milestone exDoc
      (netWorthArgs "plan-1" "ms-1" (.num 1000000))).response = Except.ok () ∧
    getMilestone (update_milestone exDoc
        (netWorthArgs "plan-1" "ms-1" (.num 1000000))).doc "plan-1" "ms-1" =
      some { exMilestone with
        criteria := some [{ type := some "netWorth"
                            value := some (.num 1000000) }] } :=
  networth_criterion_value_unvalidated exDoc "plan-1" "ms-1" exMilestone
    (.num 1000000) (by decide)

/-- C4: deleting the only remaining plan fails with "Cannot delete the last
plan", leaving the document untouched and unpersisted; with at least two
plans, deleting an existing plan succeeds, removes exactly the first plan
carrying that id, and every other plan is still found under its original
id exactly as before. -/
theorem delete_plan_last_protection :
    (∀ (d : ProjectionLabExport) (p : Plan), d.plans = [p] →
      (delete_plan d p.id).response = Except.error "Cannot delete the last plan" ∧
      (delete_plan d p.id).doc = d ∧ (delete_plan d p.id).saved = false) ∧
    (∀ (d : ProjectionLabExport) (planId : String) (plan : Plan),
      2 ≤ d.plans.length → findPlan d planId = some plan →
      (delete_plan d planId).response = Except.ok () ∧
      (delete_plan d planId).saved = true ∧
      (delete_plan d planId).doc.plans =
        eraseFirst (fun p => p.id == planId) d.plans ∧
      ∀ q ∈ d.plans, q.id ≠ planId →
        findPlan (delete_plan d planId).doc q.id = findPlan d q.id) := by
  constructor
  · intro d p hplans
    have key : delete_plan d p.id = ⟨d, false,
        .error "Cannot delete the last plan"⟩ := by
      unfold delete_plan
      rw [hplans]
      simp [List.findIdx?_cons]
    rw [key]
    exact ⟨rfl, rfl, rfl⟩
  · intro d planId plan hlen hp
    unfold findPlan at hp
    obtain ⟨i, hi⟩ := findIdx?_eq_some_of_find?_eq_some _ _ _ hp
    have hne1 : (d.plans.length == 1) = false := by
      have : d.plans.length ≠ 1 := by omega
      simpa using this
    have key : delete_plan d planId = ⟨{ d with plans := (
        eraseFirst (fun p => p.id == planId) d.plans) }, true, .ok ()⟩ := by
      unfold delete_plan
      rw [hi, hne1]
      simp
    rw [key]
    refine ⟨rfl, rfl, rfl, ?_⟩
    intro q _ hq
    unfold findPlan
    dsimp only
    apply find?_eraseFirst
    intro x hx
    have hxid : x.id = planId := by simpa using hx
    have : x.id ≠ q.id := by rw [hxid]; exact fun hc => hq hc.symm
    simpa using this

/-- C4 witness: concrete instantiations of `delete_plan_last_protection`:
the one-plan sample document refuses deletion; the two-plan document lets
"plan-1" be deleted while "plan-2" stays addressable. -/
theorem delete_plan_last_protection_witness :
    ((delete_plan exDoc "plan-1").response =
        Except.error "Cannot delete the last plan" ∧
      (delete_plan exDoc "plan-1").doc = exDoc ∧
      (delete_plan exDoc "plan-1").saved = false) ∧
    ((delete_plan exDoc2 "plan-1").response = Except.ok () ∧
      (delete_plan exDoc2 "plan-1").saved = true ∧
      (delete_plan exDoc2 "plan-1").doc.plans =
        eraseFirst (fun p => p.id == "plan-1") exDoc2.plans ∧
      findPlan (delete_plan exDoc2 "plan-1").doc "plan-2" =
        findPlan exDoc2 "plan-2") := by
  constructor
  · exact delete_plan_last_protection.1 exDoc exPlan (by decide)
  · obtain ⟨h1, h2, h3, h4⟩ := delete_plan_last_protection.2 exDoc2 "plan-1"
      exPlan (by decide) (by decide)
    exact ⟨h1, h2, h3, h4 exPlan2 (by decide) (by decide)⟩

/-- C5: `update_income` copies exactly the supplied fields onto the located
income event: every field absent from the payload keeps its previous value,
and a supplied field (including `0` or an empty string, presence being an
explicit not-undefined check) overwrites the previous value. -/
theorem update_income_partial_frame (d : ProjectionLabExport)
    (a : UpdateIncomeArgs) (inc : IncomeEvent)
    (h : getIncomeEvent d a.planId a.incomeId = some inc) :
    (update_income d a).response = Except.ok () ∧
    ∃ inc', getIncomeEvent (update_income d a).doc a.planId a.incomeId =
        some inc' ∧
      inc'.id = inc.id ∧ inc'.type = inc.type ∧
      inc'.amountType = inc.amountType ∧ inc'.owner = inc.owner ∧
      inc'.frequency = inc.frequency ∧
      (a.amount = none → inc'.amount = inc.amount) ∧
      (∀ v, a.amount = some v → inc'.amount = some v) ∧
      (a.name = none → inc'.name = inc.name) ∧
      (∀ v, a.name = some v → inc'.name = some v) ∧
      (a.start = none → inc'.start = inc.start) ∧
      (∀ v, a.start = some v → inc'.start = some v) ∧
      (a.end' = none → inc'.end' = inc.end') ∧
      (∀ v, a.end' = some v → inc'.end' = some v) := by
  obtain ⟨h1, _, h3⟩ := update_income_spec d a inc h
  refine ⟨h1, mergeIncome a inc, h3, rfl, rfl, rfl, rfl, rfl,
    ?_, ?_, ?_, ?_, ?_, ?_, ?_, ?_⟩
  · intro hx; simp [mergeIncome, applyIfPresent, hx]
  · intro v hv; simp [mergeIncome, applyIfPresent, hv]
  · intro hx; simp [mergeIncome, applyIfPresent, hx]
  · intro v hv; simp [mergeIncome, applyIfPresent, hv]
  · intro hx; simp [mergeIncome, applyIfPresent, hx]
  · intro v hv; simp [mergeIncome, applyIfPresent, hv]
  · intro hx; simp [mergeIncome, applyIfPresent, hx]
  · intro v hv; simp [mergeIncome, applyIfPresent, hv]

/-- The `update_income` argument used by the C5 witness: only `amount` is
supplied, and with the edge value `0` (which must overwrite). -/
def amountZeroArgs : UpdateIncomeArgs :=
  { planId := "plan-1", incomeId := "income-1", amount := some 0 }

/-- C5 witness: a concrete instantiation of `update_income_partial_frame`
supplying only `amount := 0`: the zero overwrites the previous amount and the
remaining fields stay what they were. -/
theorem update_income_partial_frame_witness :
    (update_income exDoc amountZeroArgs).response = Except.ok () ∧
    ∃ inc', getIncomeEvent (update_income exDoc amountZeroArgs).doc
        "plan-1" "income-1" = some inc' ∧
      inc'.id = exIncome.id ∧ inc'.type = exIncome.type ∧
      inc'.amountType = exIncome.amountType ∧ inc'.owner = exIncome.owner ∧
      inc'.frequency = exIncome.frequency ∧
      (amountZeroArgs.amount = none → inc'.amount = exIncome.amount) ∧
      (∀ v, amountZeroArgs.amount = some v → inc'.amount = some v) ∧
      (amountZeroArgs.name = none → inc'.name = exIncome.name) ∧
      (∀ v, amountZeroArgs.name = some v → inc'.name = some v) ∧
      (amountZeroArgs.start = none → inc'.start = exIncome.start) ∧
      (∀ v, amountZeroArgs.start = some v → inc'.start = some v) ∧
      (amountZeroArgs.end' = none → inc'.end' = exIncome.end') ∧
      (∀ v, amountZeroArgs.end' = some v → inc'.end' = some v) :=
  update_income_partial_frame exDoc amountZeroArgs exIncome (by decide)

/-- C6: looking up or deleting a debt whose id is absent from the debt
collection fails with "Debt not found: <id>", and both operations leave the
document unchanged and unpersisted. -/
theorem debt_lookup_not_found (d : ProjectionLabExport) (debtId : String)
    (h : (d.today.debts.getD []).find? (fun dbt => dbt.id == debtId) = none) :
    (get_debt d debtId).response = Except.error ("Debt not found: " ++ debtId) ∧
    (get_debt d debtId).doc = d ∧ (get_debt d debtId).saved = false ∧
    (delete_debt d debtId).response =
      Except.error ("Debt not found: " ++ debtId) ∧
    (delete_debt d debtId).doc = d ∧ (delete_debt d debtId).saved = false := by
  have hidx := findIdx?_eq_none_of_find?_eq_none _ _ h
  have k1 : get_debt d debtId = ⟨d, false,
      .error ("Debt not found: " ++ debtId)⟩ := by
    simp only [get_debt, h]
  have k2 : delete_debt d debtId = ⟨d, false,
      .error ("Debt not found: " ++ debtId)⟩ := by
    simp only [delete_debt, hidx]
  rw [k1, k2]
  exact ⟨rfl, rfl, rfl, rfl, rfl, rfl⟩

/-- C6 witness: a concrete instantiation of `debt_lookup_not_found` on the
sample document with the absent id "debt-404". -/
theorem debt_lookup_not_found_witness :
    (get_debt exDoc "debt-404").response =
      Except.error ("Debt not found: " ++ "debt-404") ∧
    (get_debt exDoc "debt-404").doc = exDoc ∧
    (get_debt exDoc "debt-404").saved = false ∧
    (delete_debt exDoc "debt-404").response =
      Except.error ("Debt not found: " ++ "debt-404") ∧
    (delete_debt exDoc "debt-404").doc = exDoc ∧
    (delete_debt exDoc "debt-404").saved = false :=
  debt_lookup_not_found exDoc "debt-404" (by decide)

/-- C7: duplicating an existing plan appends a copy that carries the
generated id, the supplied name and the source's nested entity lists
unchanged (same ids, same values); the copy is found under the new id; and —
provided the generated id collides with no existing plan id — subsequently
mutating an income event through the copy's id leaves the source plan, still
addressed by its original id, exactly as it was. -/
theorem duplicate_plan_independent_copy (d : ProjectionLabExport)
    (planId newName : String) (now : Int) (srcPlan : Plan)
    (hp : findPlan d planId = some srcPlan)
    (hfresh : ∀ q ∈ d.plans, q.id ≠ dupPlanId now) :
    (duplicate_plan d planId newName now).response = Except.ok () ∧
    (duplicate_plan d planId newName now).saved = true ∧
    (duplicate_plan d planId newName now).doc.plans =
      d.plans ++ [dupCopy srcPlan newName now] ∧
    (dupCopy srcPlan newName now).name = newName ∧
    (dupCopy srcPlan newName now).income = srcPlan.income ∧
    (dupCopy srcPlan newName now).expenses = srcPlan.expenses ∧
    (dupCopy srcPlan newName now).priorities = srcPlan.priorities ∧
    (dupCopy srcPlan newName now).milestones = srcPlan.milestones ∧
    findPlan (duplicate_plan d planId newName now).doc (dupPlanId now) =
      some (dupCopy srcPlan newName now) ∧
    (∀ (a : UpdateIncomeArgs), a.planId = dupPlanId now →
      findPlan (update_income
          (duplicate_plan d planId newName now).doc a).doc planId =
        some srcPlan) := by
  have key : duplicate_plan d planId newName now =
      ⟨{ d with plans := d.plans ++ [dupCopy srcPlan newName now] },
        true, .ok ()⟩ := by
    simp only [duplicate_plan, hp]
  rw [key]
  unfold findPlan at hp
  have hnone : d.plans.find? (fun p => p.id == dupPlanId now) = none := by
    rw [List.find?_eq_none]
    intro x hx
    have := hfresh x hx
    simpa using this
  have hbase : List.find? (fun p => p.id == planId)
      (d.plans ++ [dupCopy srcPlan newName now]) = some srcPlan :=
    find?_append_left _ _ _ _ hp
  refine ⟨rfl, rfl, rfl, rfl, rfl, rfl, rfl, rfl, ?_, ?_⟩
  · unfold findPlan
    dsimp only
    rw [find?_append_right _ _ _ hnone]
    simp [List.find?, dupCopy]
  · intro a ha
    have hdup_ne : planId ≠ dupPlanId now := by
      have hmem := List.mem_of_find?_eq_some hp
      have hpred := List.find?_some hp
      have hsrc_id : srcPlan.id = planId := by simpa using hpred
      have hq := hfresh srcPlan hmem
      rw [hsrc_id] at hq
      exact hq
    unfold update_income
    split
    · unfold findPlan
      dsimp only
      exact hbase
    · split
      · unfold findPlan
        dsimp only
        exact hbase
      · unfold findPlan
        dsimp only
        rw [find?_replaceFirst_of_incompat]
        · exact hbase
        · intro x hx
          rw [ha] at hx
          have hxid : x.id = dupPlanId now := by simpa using hx
          have hne : x.id ≠ planId := by
            rw [hxid]
            exact fun hc => hdup_ne hc.symm
          simpa using hne
        · intro x
          rfl

/-- The `update_income` argument the C7 witness uses to mutate the copy. -/
def copyMutArgs : UpdateIncomeArgs :=
  { planId := "plan-99", incomeId := "income-1", amount := some 1 }

/-- C7 witness: duplicating the sample plan at timestamp 99 and then changing
the copy's income amount leaves the source plan unchanged. -/
theorem duplicate_plan_independent_copy_witness :
    (duplicate_plan exDoc "plan-1" "Copy" 99).response = Except.ok () ∧
    (duplicate_plan exDoc "plan-1" "Copy" 99).doc.plans =
      exDoc.plans ++ [dupCopy exPlan "Copy" 99] ∧
    (dupCopy exPlan "Copy" 99).income = exPlan.income ∧
    findPlan (duplicate_plan exDoc "plan-1" "Copy" 99).doc (dupPlanId 99) =
      some (dupCopy exPlan "Copy" 99) ∧
    findPlan (update_income (duplicate_plan exDoc "plan-1" "Copy" 99).doc
        copyMutArgs).doc "plan-1" = some exPlan := by
  obtain ⟨h1, _, h3, _, h5, _, _, _, h9, h10⟩ :=
    duplicate_plan_independent_copy exDoc "plan-1" "Copy" 99 exPlan
      (by decide) (by decide)
  exact ⟨h1, h3, h5, h9, h10 copyMutArgs (by decide)⟩

/-- C8: account lookup probes the savings collection first and the investment
collection second, the first match winning — when an id occurs in both
collections the savings entry is the one found and the one mutated (the
investment collection is untouched) — and an id found in neither collection
makes every account operation fail with "Account not found: <id>" without
mutating or persisting anything. -/
theorem account_lookup_savings_first (d : ProjectionLabExport)
    (accountId nm : String) (bal : Int) :
    (∀ s, (d.today.savingsAccounts.getD []).find?
        (fun x => x.id == accountId) = some s →
      findAccount d accountId = some (Sum.inl s) ∧
      (update_account_balance d accountId bal).response = Except.ok () ∧
      (update_account_balance d accountId bal).doc.today.investmentAccounts =
        d.today.investmentAccounts ∧
      (update_account_balance d accountId bal).doc.today.savingsAccounts =
        some (replaceFirst (fun x => x.id == accountId)
          (fun x => { x with balance := bal })
          (d.today.savingsAccounts.getD []))) ∧
    (∀ i, (d.today.savingsAccounts.getD []).find?
        (fun x => x.id == accountId) = none →
      (d.today.investmentAccounts.getD []).find?
        (fun x => x.id == accountId) = some i →
      findAccount d accountId = some (Sum.inr i)) ∧
    ((d.today.savingsAccounts.getD []).find?
        (fun x => x.id == accountId) = none →
      (d.today.investmentAccounts.getD []).find?
        (fun x => x.id == accountId) = none →
      (get_account d accountId).response =
        Except.error ("Account not found: " ++ accountId) ∧
      (get_account d accountId).doc = d ∧
      (get_account d accountId).saved = false ∧
      (update_account_balance d accountId bal).response =
        Except.error ("Account not found: " ++ accountId) ∧
      (update_account_balance d accountId bal).doc = d ∧
      (update_account_balance d accountId bal).saved = false ∧
      (rename_account d accountId nm).response =
        Except.error ("Account not found: " ++ accountId) ∧
      (rename_account d accountId nm).doc = d ∧
      (rename_account d accountId nm).saved = false ∧
      (delete_account d accountId).response =
        Except.error ("Account not found: " ++ accountId) ∧
      (delete_account d accountId).doc = d ∧
      (delete_account d accountId).saved = false) := by
  refine ⟨?_, ?_, ?_⟩
  · intro s hs
    have k : update_account_balance d accountId bal =
        ⟨{ d with today := { d.today with savingsAccounts := some (
          replaceFirst (fun a => a.id == accountId)
            (fun a => { a with balance := bal })
            (d.today.savingsAccounts.getD [])) } }, true, .ok ()⟩ := by
      simp only [update_account_balance, hs]
    rw [k]
    refine ⟨?_, rfl, rfl, rfl⟩
    simp only [findAccount, hs]
  · intro i hsn hin
    simp only [findAccount, hsn, hin]
  · intro hsn hin
    have hsidx := findIdx?_eq_none_of_find?_eq_none _ _ hsn
    have hiidx := findIdx?_eq_none_of_find?_eq_none _ _ hin
    have k1 : get_account d accountId =
        ⟨d, false, .error ("Account not found: " ++ accountId)⟩ := by
      simp only [get_account, findAccount, hsn, hin]
    have k2 : update_account_balance d accountId bal =
        ⟨d, false, .error ("Account not found: " ++ accountId)⟩ := by
      simp only [update_account_balance, hsn, hin]
    have k3 : rename_account d accountId nm =
        ⟨d, false, .error ("Account not found: " ++ accountId)⟩ := by
      simp only [rename_account, hsn, hin]
    have k4 : delete_account d accountId =
        ⟨d, false, .error ("Account not found: " ++ accountId)⟩ := by
      simp only [delete_account, hsidx, hiidx]
    rw [k1, k2, k3, k4]
    exact ⟨rfl, rfl, rfl, rfl, rfl, rfl, rfl, rfl, rfl, rfl, rfl, rfl⟩

/-- C8 witness: on the sample document whose savings and investment
collections both contain the id "acc-1", the savings entry wins and an
update leaves the investment collection untouched; the absent id "acc-404"
fails on every account operation. -/
theorem account_lookup_savings_first_witness :
    (findAccount exDocAcc "acc-1" = some (Sum.inl exSavings) ∧
      (update_account_balance exDocAcc "acc-1" 7777).response = Except.ok () ∧
      (update_account_balance exDocAcc "acc-1" 7777).doc.today.investmentAccounts =
        exDocAcc.today.investmentAccounts ∧
      (update_account_balance exDocAcc "acc-1" 7777).doc.today.savingsAccounts =
        some (replaceFirst (fun x => x.id == "acc-1")
          (fun x => { x with balance := 7777 })
          (exDocAcc.today.savingsAccounts.getD []))) ∧
    ((get_account exDocAcc "acc-404").response =
        Except.error ("Account not found: " ++ "acc-404") ∧
      (get_account exDocAcc "acc-404").doc = exDocAcc ∧
      (get_account exDocAcc "acc-404").saved = false ∧
      (update_account_balance exDocAcc "acc-404" 7777).response =
        Except.error ("Account not found: " ++ "acc-404") ∧
      (update_account_balance exDocAcc "acc-404" 7777).doc = exDocAcc ∧
      (update_account_balance exDocAcc "acc-404" 7777).saved = false ∧
      (rename_account exDocAcc "acc-404" "New").response =
        Except.error ("Account not found: " ++ "acc-404") ∧
      (rename_account exDocAcc "acc-404" "New").doc = exDocAcc ∧
      (rename_account exDocAcc "acc-404" "New").saved = false ∧
      (delete_account exDocAcc "acc-404").response =
        Except.error ("Account not found: " ++ "acc-404") ∧
      (delete_account exDocAcc "acc-404").doc = exDocAcc ∧
      (delete_account exDocAcc "acc-404").saved = false) := by
  constructor
  · exact (account_lookup_savings_first exDocAcc "acc-1" "New" 7777).1
      exSavings (by decide)
  · exact (account_lookup_savings_first exDocAcc "acc-404" "New" 7777).2.2
      (by decide) (by decide)

/-- C9: `set_data_file` assigns the new path to the module state before
attempting to read and parse the file, so a failed read returns the error
while the stored file path has already changed to the new path and the
in-memory document is still the previously loaded one; `saveData` on that
state would therefore write the previously loaded document to the new path. -/
theorem set_data_file_path_assigned_before_load (st : ServerState)
    (p e : String) :
    (set_data_file st p (Except.error e)).2 = Except.error e ∧
    (set_data_file st p (Except.error e)).1.dataFilePath = some p ∧
    (set_data_file st p (Except.error e)).1.data = st.data ∧
    (∀ doc : ProjectionLabExport, st.data = some doc →
      saveDataTarget (set_data_file st p (Except.error e)).1 =
        Except.ok (p, doc)) := by
  refine ⟨rfl, rfl, rfl, ?_⟩
  intro doc hdoc
  simp [set_data_file, saveDataTarget, hdoc]

/-- C9 witness: a concrete failed reload: the path flips to "/new.json", the
old document stays loaded, and a save would write it to "/new.json". -/
theorem set_data_file_path_assigned_before_load_witness :
    (set_data_file { dataFilePath := some "/old.json", data := some exDoc }
        "/new.json" (Except.error "ENOENT")).2 = Except.error "ENOENT" ∧
    (set_data_file { dataFilePath := some "/old.json", data := some exDoc }
        "/new.json" (Except.error "ENOENT")).1.dataFilePath =
      some "/new.json" ∧
    (set_data_file { dataFilePath := some "/old.json", data := some exDoc }
        "/new.json" (Except.error "ENOENT")).1.data = some exDoc ∧
    saveDataTarget (set_data_file
        { dataFilePath := some "/old.json", data := some exDoc }
        "/new.json" (Except.error "ENOENT")).1 =
      Except.ok ("/new.json", exDoc) := by
  obtain ⟨h1, h2, h3, h4⟩ := set_data_file_path_assigned_before_load
    { dataFilePath := some "/old.json", data := some exDoc }
    "/new.json" "ENOENT"
  exact ⟨h1, h2, h3, h4 exDoc rfl⟩

/-- C10: `add_account` rejects no `accountType`: any string other than
exactly "savings" — including strings outside the declared enum — appends
the new account to the investment collection with that string stored
verbatim as its `type` (savings untouched), and exactly "savings" appends to
the savings collection (investments untouched); both succeed and persist. -/
theorem add_account_type_routing (d : ProjectionLabExport)
    (a : AddAccountArgs) (now : Int) :
    (a.accountType ≠ "savings" →
      (add_account d a now).response = Except.ok () ∧
      (add_account d a now).saved = true ∧
      (add_account d a now).doc.today.savingsAccounts =
        d.today.savingsAccounts ∧
      (add_account d a now).doc.today.investmentAccounts = some (
        (d.today.investmentAccounts.getD []) ++
        [{ id := "account-" ++ toString now, type := a.accountType,
           name := some a.name, balance := a.balance,
           owner := some (a.owner.getD "me") }])) ∧
    (a.accountType = "savings" →
      (add_account d a now).response = Except.ok () ∧
      (add_account d a now).saved = true ∧
      (add_account d a now).doc.today.investmentAccounts =
        d.today.investmentAccounts ∧
      (add_account d a now).doc.today.savingsAccounts = some (
        (d.today.savingsAccounts.getD []) ++
        [{ id := "account-" ++ toString now, type := "savings",
           name := some a.name, balance := a.balance,
           owner := some (a.owner.getD "me") }])) := by
  constructor
  · intro hne
    have hb : (a.accountType == "savings") = false := by
      simpa using hne
    have k : add_account d a now =
        ⟨{ d with today := { d.today with investmentAccounts := some (
          (d.today.investmentAccounts.getD []) ++
          [{ id := "account-" ++ toString now, type := a.accountType,
             name := some a.name, balance := a.balance,
             owner := some (a.owner.getD "me") }]) } }, true, .ok ()⟩ := by
      simp only [add_account, hb]
      rfl
    rw [k]
    exact ⟨rfl, rfl, rfl, rfl⟩
  · intro heq
    have hb : (a.accountType == "savings") = true := by
      simpa using heq
    have k : add_account d a now =
        ⟨{ d with today := { d.today with savingsAccounts := some (
          (d.today.savingsAccounts.getD []) ++
          [{ id := "account-" ++ toString now, type := "savings",
             name := some a.name, balance := a.balance,
             owner := some (a.owner.getD "me") }]) } }, true, .ok ()⟩ := by
      simp only [add_account, hb]
      rfl
    rw [k]
    exact ⟨rfl, rfl, rfl, rfl⟩

/-- The `add_account` argument used by the C10 witness: an `accountType`
that is not even a member of the declared enum. -/
def bogusAccountArgs : AddAccountArgs :=
  { name := "Vault", balance := 42, accountType := "crypto-wallet" }

/-- C10 witness: the `accountType` "crypto-wallet" (outside the declared
enum) is not rejected: the account lands in the investment collection with
`type := "crypto-wallet"` verbatim. -/
theorem add_account_type_routing_witness :
    (add_account exDoc bogusAccountArgs 7).response = Except.ok () ∧
    (add_account exDoc bogusAccountArgs 7).saved = true ∧
    (add_account exDoc bogusAccountArgs 7).doc.today.savingsAccounts =
      exDoc.today.savingsAccounts ∧
    (add_account exDoc bogusAccountArgs 7).doc.today.investmentAccounts =
      some ((exDoc.today.investmentAccounts.getD []) ++
        [{ id := "account-" ++ toString (7 : Int), type := "crypto-wallet",
           name := some "Vault", balance := 42, owner := some "me" }]) :=
  (add_account_type_routing exDoc bogusAccountArgs 7).1 (by decide)
